import Mathlib

/-!
Verification of the Academic Grievance DSS mock rule engine and fairness
service against its natural-language specification.

The definitions below are a shallow embedding of
`backend/services/mock_rule_engine_service.py` and
`backend/services/fairness_service.py`.  Python numbers are modelled as
rationals, dictionaries of grievance parameters as association lists of
tagged values, and the fallible `detect_anomaly` routine as an
`Except`-valued function.  Wall-clock fields (`processing_time_ms`) are
omitted: they are not part of any functional property.
-/

namespace DSS

/-- A parameter value, as stored in the grievance `parameters` dict. -/
inductive PValue where
  | num (q : ℚ)
  | bool (b : Bool)
  | str (s : String)
deriving Repr, DecidableEq

/-- The `parameters` dict of a grievance: an arbitrary key-value map. -/
abbrev Params := List (String × PValue)

/-- `params.get(k, d)` for a numeric default, as used by the evaluators. -/
def getNum (p : Params) (k : String) (d : ℚ) : ℚ :=
  match p.lookup k with
  | some (PValue.num q) => q
  | _ => d

/-- `params.get(k, d)` for a boolean default. -/
def getBool (p : Params) (k : String) (d : Bool) : Bool :=
  match p.lookup k with
  | some (PValue.bool b) => b
  | _ => d

/-- `params.get(k, d)` for a string default. -/
def getStr (p : Params) (k : String) (d : String) : String :=
  match p.lookup k with
  | some (PValue.str s) => s
  | _ => d

/-- Stand-in for Python numeric formatting inside f-strings. -/
def ratStr (q : ℚ) : String :=
  if q.den = 1 then toString q.num else toString q.num ++ "/" ++ toString q.den

/-- One entry of the `rules_evaluated` list built by the mock engine. -/
structure RuleFiring where
  rule_id : String
  hierarchy_level : String
  salience : ℕ
  fired : Bool
  outcome : String
  source : String
deriving Repr, DecidableEq

/-- One entry of the `conflicts_detected` list (the source's `type` key is
the `ctype` field here). -/
structure Conflict where
  ctype : String
  conflicting_rules : List String
  resolution_strategy : String
  winning_rule : String
  reason : String
deriving Repr, DecidableEq

/-- The decision dict produced by each evaluator. -/
structure Decision where
  outcome : String
  applicable_rule : String
  regulatory_source : String
  hierarchy_level : String
  salience : ℕ
  reason : String
  explanation : String
  action_required : Option String
  human_review_required : Bool
deriving Repr, DecidableEq

/-- The trace dict (minus the wall-clock `processing_time_ms` field). -/
structure Trace where
  rules_evaluated : List RuleFiring
  conflicts_detected : List Conflict
  final_decision : Decision
deriving Repr, DecidableEq

/-- The dict returned by `evaluate_grievance`. -/
structure EvalResult where
  decision : Decision
  trace : Trace
  rules_fired : ℕ
deriving Repr, DecidableEq

/-- The L1 national attendance rule entry appended when `attendance < 75`. -/
def ugc_attendance_rule : RuleFiring :=
  { rule_id := "UGC_Attendance_75Percent_Minimum"
    hierarchy_level := "L1_National"
    salience := 1500
    fired := true
    outcome := "REJECT"
    source := "UGC Regulations 2018, Section 4.2" }

/-- The L3 university medical-excuse rule entry appended when a medical
certificate is present and `attendance >= 65`. -/
def medical_excuse_rule : RuleFiring :=
  { rule_id := "University_Medical_Excuse_Attendance"
    hierarchy_level := "L3_University"
    salience := 500
    fired := true
    outcome := "ACCEPT"
    source := "University Statute 12.3" }

/-- The conflict record appended when both attendance rules fire. -/
def attendance_authority_conflict : Conflict :=
  { ctype := "AUTHORITY_CONFLICT"
    conflicting_rules :=
      ["UGC_Attendance_75Percent_Minimum (L1_National)",
       "University_Medical_Excuse_Attendance (L3_University)"]
    resolution_strategy := "Authority Precedence"
    winning_rule := "UGC_Attendance_75Percent_Minimum"
    reason := "L1_National supersedes L3_University" }

/-- The REJECT decision built by `_evaluate_attendance` when `attendance < 75`. -/
def attendance_reject_decision (attendance : ℚ) : Decision :=
  { outcome := "REJECT"
    applicable_rule := "UGC_Attendance_75Percent_Minimum"
    regulatory_source := "UGC Regulations 2018, Section 4.2"
    hierarchy_level := "L1_National"
    salience := 1500
    reason := "Attendance " ++ ratStr attendance ++ "% is below UGC-mandated 75% minimum"
    explanation := "The University Grants Commission (UGC) mandates a minimum of 75% attendance for all students. Your attendance of " ++ ratStr attendance ++ "% does not meet this requirement. Even with a medical certificate, the national regulation takes precedence over university policies."
    action_required := none
    human_review_required := false }

/-- The ACCEPT decision built by `_evaluate_attendance` when `attendance >= 75`. -/
def attendance_accept_decision (attendance : ℚ) : Decision :=
  { outcome := "ACCEPT"
    applicable_rule := "UGC_Attendance_Satisfied"
    regulatory_source := "UGC Regulations 2018, Section 4.2"
    hierarchy_level := "L1_National"
    salience := 1500
    reason := "Attendance " ++ ratStr attendance ++ "% meets UGC requirement"
    explanation := "Your attendance of " ++ ratStr attendance ++ "% meets the UGC-mandated minimum of 75%."
    action_required := none
    human_review_required := false }

/-- `_evaluate_attendance`: evaluate an ATTENDANCE_SHORTAGE grievance. -/
def evaluate_attendance (params : Params) : Decision × Trace :=
  let attendance := getNum params "attendance_percentage" 0
  let has_medical := getBool params "has_medical_certificate" false
  let rules_evaluated : List RuleFiring :=
    (if attendance < 75 then [ugc_attendance_rule] else []) ++
    (if has_medical ∧ 65 ≤ attendance then [medical_excuse_rule] else [])
  let conflicts : List Conflict :=
    if has_medical ∧ 65 ≤ attendance ∧ attendance < 75 then
      [attendance_authority_conflict]
    else []
  let decision :=
    if attendance < 75 then attendance_reject_decision attendance
    else attendance_accept_decision attendance
  (decision,
   { rules_evaluated := rules_evaluated
     conflicts_detected := conflicts
     final_decision := decision })

/-- The single rule entry recorded by `_evaluate_examination`. -/
def examination_rule (outcome : String) : RuleFiring :=
  { rule_id := "University_Revaluation_Timeline"
    hierarchy_level := "L3_University"
    salience := 1000
    fired := true
    outcome := outcome
    source := "University Examination Rules 2023" }

/-- `_evaluate_examination`: evaluate an EXAMINATION_REEVAL grievance. -/
def evaluate_examination (params : Params) : Decision × Trace :=
  let days_since := getNum params "days_since_result_declaration" 999
  let fee_paid := getBool params "revaluation_fee_paid" false
  let outcome :=
    if days_since ≤ 15 ∧ fee_paid then "ACCEPT"
    else if 15 < days_since then "REJECT"
    else "PENDING_CLARIFICATION"
  let reason :=
    if days_since ≤ 15 ∧ fee_paid then "Revaluation request within timeline and fee paid"
    else if 15 < days_since then
      "Revaluation request submitted " ++ ratStr days_since ++ " days after result (deadline: 15 days)"
    else "Revaluation fee payment required"
  let decision : Decision :=
    { outcome := outcome
      applicable_rule := "University_Revaluation_Timeline"
      regulatory_source := "University Examination Rules 2023, Section 8.4"
      hierarchy_level := "L3_University"
      salience := 1000
      reason := reason
      explanation := "Revaluation requests must be submitted within 15 days of result declaration with the prescribed fee. Your request was submitted after " ++ ratStr days_since ++ " days."
      action_required := if fee_paid then none else some "Pay revaluation fee"
      human_review_required := false }
  (decision,
   { rules_evaluated := [examination_rule outcome]
     conflicts_detected := []
     final_decision := decision })

/-- The single rule entry recorded by `_evaluate_fee_waiver`. -/
def fee_waiver_rule (rule_id hierarchy : String) (salience : ℕ) (outcome : String) :
    RuleFiring :=
  { rule_id := rule_id
    hierarchy_level := hierarchy
    salience := salience
    fired := true
    outcome := outcome
    source := "UGC/University Fee Rules" }

/-- `_evaluate_fee_waiver`: evaluate a FEE_WAIVER grievance. -/
def evaluate_fee_waiver (params : Params) : Decision × Trace :=
  let category := getStr params "student_category" "GENERAL"
  let income := getNum params "family_income" 999999
  let has_income_cert := getBool params "has_income_certificate" false
  let sel : String × String × String × String × ℕ :=
    if category = "SC" ∨ category = "ST" then
      ("ACCEPT", "SC/ST students eligible for full fee waiver",
       "National_SC_ST_Fee_Waiver", "L1_National", 1500)
    else if category = "EWS" ∧ income < 800000 ∧ has_income_cert then
      ("ACCEPT", "EWS student with income below threshold",
       "National_EWS_Fee_Waiver", "L1_National", 1400)
    else
      ("REJECT", "Does not meet fee waiver criteria",
       "Fee_Waiver_General_Rule", "L3_University", 500)
  let outcome := sel.1
  let reason := sel.2.1
  let rule_id := sel.2.2.1
  let hierarchy := sel.2.2.2.1
  let salience := sel.2.2.2.2
  let decision : Decision :=
    { outcome := outcome
      applicable_rule := rule_id
      regulatory_source := "UGC Fee Waiver Guidelines 2020"
      hierarchy_level := hierarchy
      salience := salience
      reason := reason
      explanation := "Based on your category (" ++ category ++ ") and family income (Rs " ++ ratStr income ++ "), your fee waiver request has been evaluated."
      action_required :=
        if ¬has_income_cert ∧ category = "EWS" then some "Submit income certificate" else none
      human_review_required := false }
  (decision,
   { rules_evaluated := [fee_waiver_rule rule_id hierarchy salience outcome]
     conflicts_detected := []
     final_decision := decision })

/-- The default decision built by `_default_evaluation` for unknown types. -/
def default_decision : Decision :=
  { outcome := "PENDING_CLARIFICATION"
    applicable_rule := "Default_Review_Required"
    regulatory_source := "University General Rules"
    hierarchy_level := "L3_University"
    salience := 100
    reason := "Grievance requires manual review"
    explanation := "This type of grievance requires human review to determine the appropriate course of action."
    action_required := some "Provide additional details"
    human_review_required := true }

/-- The single rule entry recorded by `_default_evaluation`. -/
def default_firing : RuleFiring :=
  { rule_id := "Default_Review_Required"
    hierarchy_level := "L3_University"
    salience := 100
    fired := true
    outcome := "PENDING_CLARIFICATION"
    source := "University General Rules" }

/-- `_default_evaluation`: the branch taken for unknown grievance types. -/
def default_evaluation : Decision × Trace :=
  (default_decision,
   { rules_evaluated := [default_firing]
     conflicts_detected := []
     final_decision := default_decision })

/-- `evaluate_grievance`: dispatch on the grievance type and assemble the
result dict (`rules_fired` is the length of `rules_evaluated`). -/
def evaluate_grievance (grievance_type : String) (parameters : Params) : EvalResult :=
  let dt :=
    if grievance_type = "ATTENDANCE_SHORTAGE" then evaluate_attendance parameters
    else if grievance_type = "EXAMINATION_REEVAL" then evaluate_examination parameters
    else if grievance_type = "FEE_WAIVER" then evaluate_fee_waiver parameters
    else default_evaluation
  { decision := dt.1
    trace := dt.2
    rules_fired := dt.2.rules_evaluated.length }

/-- The entries of a trace whose `fired` flag is set. -/
def firedRules (t : Trace) : List RuleFiring :=
  t.rules_evaluated.filter (fun f => f.fired)

/-- A decision summary as read by the fairness service: the `outcome`,
`applicable_rule` and `hierarchy_level` keys, each possibly absent
(`dict.get` returns `None` for a missing key). -/
structure CaseSummary where
  outcome : Option String
  applicable_rule : Option String
  hierarchy_level : Option String
deriving Repr, DecidableEq

/-- `self.consistency_threshold`, set to 0.85 in the constructor. -/
def consistency_threshold : ℚ := 0.85

/-- Python `round(x, 4)` modelled over the rationals. -/
def round4 (q : ℚ) : ℚ := ((round (q * 10000) : ℤ) : ℚ) / 10000

/-- `calculate_consistency_score`: weighted agreement with similar cases
(outcome 50%, rule 30%, hierarchy level 20%), rounded to 4 decimals;
`1.0` when no similar cases exist. -/
def calculate_consistency_score (current : CaseSummary)
    (similar_cases : List CaseSummary) : ℚ :=
  if similar_cases = [] then 1
  else
    let total : ℚ := similar_cases.length
    let outcome_matches : ℚ :=
      ((similar_cases.filter (fun c => c.outcome = current.outcome)).length : ℚ)
    let rule_matches : ℚ :=
      ((similar_cases.filter (fun c => c.applicable_rule = current.applicable_rule)).length : ℚ)
    let level_matches : ℚ :=
      ((similar_cases.filter (fun c => c.hierarchy_level = current.hierarchy_level)).length : ℚ)
    round4 (0.5 * (outcome_matches / total) +
            0.3 * (rule_matches / total) +
            0.2 * (level_matches / total))

/-- Combine the current element with the best candidate found so far,
keeping the earlier element on ties. -/
def pickMax {α : Type} (f : α → ℕ) (a : α) : Option α → α
  | none => a
  | some b => if f b ≤ f a then a else b

/-- First element of the list attaining the maximal value of `f`
(`none` exactly on the empty list). -/
def firstMax {α : Type} (f : α → ℕ) : List α → Option α
  | [] => none
  | a :: rest => some (pickMax f a (firstMax f rest))

/-- `Counter(l).most_common(1)` head: the element with the largest
multiplicity, ties broken by first occurrence in input order, paired
with its count. -/
def mostCommonWithCount {α : Type} [BEq α] (l : List α) :
    Option (α × ℕ) :=
  (firstMax (fun a => l.count a) l).map (fun a => (a, l.count a))

/-- The payload of the anomaly reason f-string built by `detect_anomaly`:
the differing outcome, the majority outcome with its count and the total
number of similar cases, and the score against the threshold. -/
structure AnomalyReason where
  current_outcome : Option String
  most_common_outcome : Option String
  count : ℕ
  total : ℕ
  consistency_score : ℚ
  threshold : ℚ
deriving Repr, DecidableEq

/-- `detect_anomaly`: below-threshold scores are compared against the most
common historical outcome.  Indexing `most_common(1)[0]` on an empty
counter raises, modelled as `Except.error`. -/
def detect_anomaly (consistency_score : ℚ) (current : CaseSummary)
    (similar_cases : List CaseSummary) :
    Except String (Bool × Option AnomalyReason) :=
  if consistency_score < consistency_threshold then
    match mostCommonWithCount (similar_cases.map (fun c => c.outcome)) with
    | none => Except.error "IndexError: list index out of range"
    | some (mc, cnt) =>
      if current.outcome ≠ mc then
        Except.ok (true, some
          { current_outcome := current.outcome
            most_common_outcome := mc
            count := cnt
            total := similar_cases.length
            consistency_score := consistency_score
            threshold := consistency_threshold })
      else Except.ok (false, none)
  else Except.ok (false, none)

/-- The anomaly-band recommendation text. -/
def human_review_text : String :=
  "⚠️ HUMAN REVIEW RECOMMENDED: This decision shows significant deviation from historical patterns. Please review for potential bias or exceptional circumstances."

/-- The middle-band recommendation text. -/
def review_suggested_text : String :=
  "ℹ️ REVIEW SUGGESTED: While within acceptable range, this decision shows some variation from typical outcomes. Consider reviewing for consistency."

/-- The high-consistency recommendation text. -/
def consistent_text : String :=
  "✓ CONSISTENT: This decision aligns well with historical patterns for similar cases."

/-- `_generate_recommendation`: anomaly text, else the sub-0.90 review
text, else the consistent text. -/
def generate_recommendation (consistency_score : ℚ) (is_anomaly : Bool) : String :=
  if is_anomaly then human_review_text
  else if consistency_score < 0.90 then review_suggested_text
  else consistent_text

/-- A sample current decision summary used to instantiate fairness theorems. -/
def fair_current_accept : CaseSummary :=
  { outcome := some "ACCEPT"
    applicable_rule := some "UGC_Attendance_Satisfied"
    hierarchy_level := some "L1_National" }

/-- A sample historical case summary used to instantiate fairness theorems. -/
def fair_case_reject : CaseSummary :=
  { outcome := some "REJECT"
    applicable_rule := some "UGC_Attendance_75Percent_Minimum"
    hierarchy_level := some "L1_National" }

deriving instance DecidableEq for Except

/-- `firstMax` is `none` exactly on the empty list. -/
theorem firstMax_eq_none_iff {α : Type} (f : α → ℕ) (l : List α) :
    firstMax f l = none ↔ l = [] := by
  cases l with
  | nil => simp [firstMax]
  | cons a rest => simp [firstMax]

/-- The element selected by `firstMax` attains the maximal value of `f`. -/
theorem firstMax_isMax {α : Type} (f : α → ℕ) :
    ∀ (l : List α) (a : α), firstMax f l = some a → ∀ b ∈ l, f b ≤ f a := by
  intro l
  induction l with
  | nil => intro a h; simp [firstMax] at h
  | cons x rest ih =>
    intro a h b hb
    simp only [firstMax, Option.some.injEq] at h
    cases hr : firstMax f rest with
    | none =>
      rw [hr] at h
      simp only [pickMax] at h
      subst h
      have hrest : rest = [] := (firstMax_eq_none_iff f rest).1 hr
      subst hrest
      simp at hb
      subst hb
      exact le_rfl
    | some c =>
      rw [hr] at h
      simp only [pickMax] at h
      by_cases hfc : f c ≤ f x
      · rw [if_pos hfc] at h
        subst h
        rcases List.mem_cons.1 hb with rfl | hb
        · exact le_rfl
        · exact le_trans (ih c hr b hb) hfc
      · rw [if_neg hfc] at h
        subst h
        rcases List.mem_cons.1 hb with rfl | hb
        · exact le_of_lt (not_le.1 hfc)
        · exact ih c hr b hb

/-- The element selected by `firstMax` is the first maximiser: everything
before it in the list has a strictly smaller value of `f`. -/
theorem firstMax_first {α : Type} (f : α → ℕ) :
    ∀ (l : List α) (a : α), firstMax f l = some a →
      ∃ pre post, l = pre ++ a :: post ∧ ∀ b ∈ pre, f b < f a := by
  intro l
  induction l with
  | nil => intro a h; simp [firstMax] at h
  | cons x rest ih =>
    intro a h
    simp only [firstMax, Option.some.injEq] at h
    cases hr : firstMax f rest with
    | none =>
      rw [hr] at h
      simp only [pickMax] at h
      subst h
      exact ⟨[], rest, rfl, by simp⟩
    | some c =>
      rw [hr] at h
      simp only [pickMax] at h
      by_cases hfc : f c ≤ f x
      · rw [if_pos hfc] at h
        subst h
        exact ⟨[], rest, rfl, by simp⟩
      · rw [if_neg hfc] at h
        subst h
        obtain ⟨pre, post, hsplit, hpre⟩ := ih c hr
        refine ⟨x :: pre, post, by rw [hsplit]; rfl, ?_⟩
        intro b hb
        rcases List.mem_cons.1 hb with rfl | hb
        · exact not_le.1 hfc
        · exact hpre b hb

/-- `round` is monotone over the rationals. -/
theorem round_rat_mono {x y : ℚ} (h : x ≤ y) : round x ≤ round y := by
  rw [round_eq, round_eq]
  exact Int.floor_mono (by linarith)

/-- `round4` maps nonnegative inputs to nonnegative outputs. -/
theorem round4_nonneg {q : ℚ} (h : 0 ≤ q) : 0 ≤ round4 q := by
  unfold round4
  have h1 : (0 : ℤ) ≤ round (q * 10000) := by
    have := round_rat_mono (by linarith : (0 : ℚ) ≤ q * 10000)
    simpa using this
  have h2 : (0 : ℚ) ≤ ((round (q * 10000) : ℤ) : ℚ) := by exact_mod_cast h1
  positivity

/-- `round4` maps inputs at most one to outputs at most one. -/
theorem round4_le_one {q : ℚ} (h : q ≤ 1) : round4 q ≤ 1 := by
  unfold round4
  have hle : q * 10000 ≤ ((10000 : ℤ) : ℚ) := by push_cast; linarith
  have h1 : round (q * 10000) ≤ (10000 : ℤ) := by
    have := round_rat_mono hle
    simpa [round_intCast] using this
  rw [div_le_one (by norm_num)]
  exact_mod_cast h1

/-- Every entry the attendance evaluator records has `fired = true`. -/
theorem attendance_entries_fired (params : Params) :
    ∀ f ∈ (evaluate_attendance params).2.rules_evaluated, f.fired = true := by
  intro f hf
  simp only [evaluate_attendance] at hf
  rcases List.mem_append.1 hf with h | h
  · split at h
    · simp only [List.mem_singleton] at h; subst h; rfl
    · simp at h
  · split at h
    · simp only [List.mem_singleton] at h; subst h; rfl
    · simp at h

/-- Every entry any evaluator records has `fired = true`. -/
theorem all_entries_fired (gtype : String) (params : Params) :
    ∀ f ∈ (evaluate_grievance gtype params).trace.rules_evaluated, f.fired = true := by
  intro f hf
  simp only [evaluate_grievance] at hf
  split at hf
  · exact attendance_entries_fired params f hf
  · split at hf
    · simp only [evaluate_examination] at hf
      simp only [List.mem_singleton] at hf; subst hf; rfl
    · split at hf
      · simp only [evaluate_fee_waiver] at hf
        simp only [List.mem_singleton] at hf; subst hf; rfl
      · simp only [default_evaluation] at hf
        simp only [List.mem_singleton] at hf; subst hf; rfl

/-- Claim C1 counterexample: for an ATTENDANCE_SHORTAGE grievance with
attendance_percentage = 80 (≥ 75), the mock engine records no Firing at
all — `rules_evaluated` is the empty list, with no non-fired entry for the
considered attendance rule. -/
theorem C1_counterexample :
    (evaluate_grievance "ATTENDANCE_SHORTAGE"
        [("attendance_percentage", PValue.num 80)]).trace.rules_evaluated = [] := by
  decide

/-- Claim C1 (amended): the mock evaluator records a Firing only for rules
whose predicate held — every entry of `rules_evaluated` has `fired = true`
for every evaluation — and an ATTENDANCE_SHORTAGE grievance with
attendance_percentage ≥ 75 and no medical certificate produces an empty
`rules_evaluated` list. -/
theorem C1_only_fired_recorded (gtype : String) (params : Params) :
    (∀ f ∈ (evaluate_grievance gtype params).trace.rules_evaluated, f.fired = true) ∧
    (75 ≤ getNum params "attendance_percentage" 0 →
      getBool params "has_medical_certificate" false = false →
      (evaluate_grievance "ATTENDANCE_SHORTAGE" params).trace.rules_evaluated = []) := by
  refine ⟨all_entries_fired gtype params, ?_⟩
  intro h75 hmed
  simp [evaluate_grievance, evaluate_attendance, hmed, not_lt.2 h75]

/-- Claim C1 witness: the amended statement instantiated at concrete inputs. -/
theorem C1_only_fired_recorded_witness :
    default_firing.fired = true ∧
    (evaluate_grievance "ATTENDANCE_SHORTAGE"
        [("attendance_percentage", PValue.num 80)]).trace.rules_evaluated = [] :=
  ⟨(C1_only_fired_recorded "HOSTEL_ISSUE" []).1 default_firing (by decide),
   (C1_only_fired_recorded "HOSTEL_ISSUE"
      [("attendance_percentage", PValue.num 80)]).2 (by decide) (by decide)⟩

/-- Claim C2 counterexample: for an ATTENDANCE_SHORTAGE grievance with
attendance_percentage = 80 no rule fires, yet the decision is ACCEPT with
human_review_required = false — not the PENDING_CLARIFICATION default the
claim requires. -/
theorem C2_counterexample :
    firedRules (evaluate_grievance "ATTENDANCE_SHORTAGE"
        [("attendance_percentage", PValue.num 80)]).trace = [] ∧
    (evaluate_grievance "ATTENDANCE_SHORTAGE"
        [("attendance_percentage", PValue.num 80)]).decision.outcome = "ACCEPT" ∧
    (evaluate_grievance "ATTENDANCE_SHORTAGE"
        [("attendance_percentage", PValue.num 80)]).decision.human_review_required = false := by
  decide

/-- Claim C2 (amended): only an unknown grievance type yields the
PENDING_CLARIFICATION / human-review default decision with no conflicts;
an ATTENDANCE_SHORTAGE evaluation in which no rule fires instead yields an
ACCEPT decision with human_review_required = false and no conflicts. -/
theorem C2_no_match_behavior (gtype : String) (params : Params) :
    (gtype ≠ "ATTENDANCE_SHORTAGE" → gtype ≠ "EXAMINATION_REEVAL" → gtype ≠ "FEE_WAIVER" →
      (evaluate_grievance gtype params).decision.outcome = "PENDING_CLARIFICATION" ∧
      (evaluate_grievance gtype params).decision.human_review_required = true ∧
      (evaluate_grievance gtype params).trace.conflicts_detected = []) ∧
    (firedRules (evaluate_grievance "ATTENDANCE_SHORTAGE" params).trace = [] →
      (evaluate_grievance "ATTENDANCE_SHORTAGE" params).decision.outcome = "ACCEPT" ∧
      (evaluate_grievance "ATTENDANCE_SHORTAGE" params).decision.human_review_required = false ∧
      (evaluate_grievance "ATTENDANCE_SHORTAGE" params).trace.conflicts_detected = []) := by
  constructor
  · intro hA hE hF
    simp [evaluate_grievance, hA, hE, hF, default_evaluation, default_decision]
  · intro hnone
    by_cases h75 : getNum params "attendance_percentage" 0 < 75
    · exfalso
      have hmem : ugc_attendance_rule ∈
          firedRules (evaluate_grievance "ATTENDANCE_SHORTAGE" params).trace := by
        simp [firedRules, evaluate_grievance, evaluate_attendance, h75, ugc_attendance_rule]
      rw [hnone] at hmem
      simp at hmem
    · simp [evaluate_grievance, evaluate_attendance, h75, attendance_accept_decision]

/-- Claim C2 witness: the amended statement instantiated at concrete inputs. -/
theorem C2_no_match_behavior_witness :
    ((evaluate_grievance "HOSTEL_ISSUE" []).decision.outcome = "PENDING_CLARIFICATION" ∧
     (evaluate_grievance "HOSTEL_ISSUE" []).decision.human_review_required = true ∧
     (evaluate_grievance "HOSTEL_ISSUE" []).trace.conflicts_detected = []) ∧
    ((evaluate_grievance "ATTENDANCE_SHORTAGE"
        [("attendance_percentage", PValue.num 80)]).decision.outcome = "ACCEPT" ∧
     (evaluate_grievance "ATTENDANCE_SHORTAGE"
        [("attendance_percentage", PValue.num 80)]).decision.human_review_required = false ∧
     (evaluate_grievance "ATTENDANCE_SHORTAGE"
        [("attendance_percentage", PValue.num 80)]).trace.conflicts_detected = []) :=
  ⟨(C2_no_match_behavior "HOSTEL_ISSUE" []).1 (by decide) (by decide) (by decide),
   (C2_no_match_behavior "HOSTEL_ISSUE"
      [("attendance_percentage", PValue.num 80)]).2 (by decide)⟩

/-- Claim C3 counterexample: an ATTENDANCE_SHORTAGE grievance whose
parameters lack attendance_percentage is treated as 0% attendance, so the
below-75% REJECT rule does fire — contrary to the claim that a condition
referencing a missing key is never satisfied. -/
theorem C3_counterexample :
    (evaluate_grievance "ATTENDANCE_SHORTAGE"
        [("has_medical_certificate", PValue.bool false)]).trace.rules_evaluated
      = [ugc_attendance_rule] ∧
    ugc_attendance_rule.fired = true ∧
    (evaluate_grievance "ATTENDANCE_SHORTAGE"
        [("has_medical_certificate", PValue.bool false)]).decision.outcome = "REJECT" := by
  decide

/-- Claim C3 (amended): evaluation is total — a missing key is replaced by
a per-key default rather than raising.  The default for family_income
(999999) keeps the EWS income condition unsatisfied, but the default for
attendance_percentage (0) makes the below-75% REJECT rule fire. -/
theorem C3_missing_key_defaults (params : Params) :
    (params.lookup "attendance_percentage" = none →
      ugc_attendance_rule ∈
        (evaluate_grievance "ATTENDANCE_SHORTAGE" params).trace.rules_evaluated ∧
      (evaluate_grievance "ATTENDANCE_SHORTAGE" params).decision.outcome = "REJECT") ∧
    (params.lookup "family_income" = none →
      (evaluate_grievance "FEE_WAIVER" params).decision.applicable_rule
        ≠ "National_EWS_Fee_Waiver") := by
  constructor
  · intro h
    have ha : getNum params "attendance_percentage" 0 = 0 := by simp [getNum, h]
    constructor
    · simp [evaluate_grievance, evaluate_attendance, ha]
    · simp [evaluate_grievance, evaluate_attendance, ha, attendance_reject_decision]
  · intro h
    have hi : getNum params "family_income" 999999 = 999999 := by simp [getNum, h]
    simp only [evaluate_grievance, evaluate_fee_waiver, hi]
    norm_num
    by_cases hsc : getStr params "student_category" "GENERAL" = "SC" ∨
        getStr params "student_category" "GENERAL" = "ST"
    · simp [hsc]
    · simp [hsc]

/-- Claim C3 witness: the amended statement instantiated at concrete inputs. -/
theorem C3_missing_key_defaults_witness :
    (ugc_attendance_rule ∈
        (evaluate_grievance "ATTENDANCE_SHORTAGE"
          [("has_medical_certificate", PValue.bool false)]).trace.rules_evaluated ∧
     (evaluate_grievance "ATTENDANCE_SHORTAGE"
          [("has_medical_certificate", PValue.bool false)]).decision.outcome = "REJECT") ∧
    (evaluate_grievance "FEE_WAIVER"
        [("student_category", PValue.str "EWS"),
         ("has_income_certificate", PValue.bool true)]).decision.applicable_rule
      ≠ "National_EWS_Fee_Waiver" :=
  ⟨(C3_missing_key_defaults
      [("has_medical_certificate", PValue.bool false)]).1 (by decide),
   (C3_missing_key_defaults
      [("student_category", PValue.str "EWS"),
       ("has_income_certificate", PValue.bool true)]).2 (by decide)⟩

/-- Claim C4: when both attendance rules fire (attendance below 75 with a
medical certificate and attendance at least 65), the engine records exactly
one conflict — the AUTHORITY_CONFLICT record with resolution strategy
"Authority Precedence" — whose winner is the L1_National firing, and the
final decision carries that winner's outcome REJECT and tier L1_National
over the L3_University ACCEPT firing. -/
theorem C4_authority_conflict (params : Params)
    (h1 : getNum params "attendance_percentage" 0 < 75)
    (h2 : getBool params "has_medical_certificate" false = true)
    (h3 : 65 ≤ getNum params "attendance_percentage" 0) :
    (evaluate_grievance "ATTENDANCE_SHORTAGE" params).trace.rules_evaluated
        = [ugc_attendance_rule, medical_excuse_rule] ∧
    (evaluate_grievance "ATTENDANCE_SHORTAGE" params).trace.conflicts_detected
        = [attendance_authority_conflict] ∧
    attendance_authority_conflict.ctype = "AUTHORITY_CONFLICT" ∧
    attendance_authority_conflict.resolution_strategy = "Authority Precedence" ∧
    attendance_authority_conflict.winning_rule = ugc_attendance_rule.rule_id ∧
    ugc_attendance_rule.hierarchy_level = "L1_National" ∧
    ugc_attendance_rule.outcome = "REJECT" ∧
    ugc_attendance_rule.salience = 1500 ∧
    medical_excuse_rule.hierarchy_level = "L3_University" ∧
    medical_excuse_rule.outcome = "ACCEPT" ∧
    medical_excuse_rule.salience = 500 ∧
    (evaluate_grievance "ATTENDANCE_SHORTAGE" params).decision.outcome = "REJECT" ∧
    (evaluate_grievance "ATTENDANCE_SHORTAGE" params).decision.hierarchy_level
        = "L1_National" := by
  refine ⟨?_, ?_, rfl, rfl, rfl, rfl, rfl, rfl, rfl, rfl, rfl, ?_, ?_⟩
  · simp [evaluate_grievance, evaluate_attendance, h1, h2, h3]
  · simp [evaluate_grievance, evaluate_attendance, h1, h2, h3]
  · simp [evaluate_grievance, evaluate_attendance, h1, attendance_reject_decision]
  · simp [evaluate_grievance, evaluate_attendance, h1, attendance_reject_decision]

/-- Claim C4 witness: the theorem instantiated at attendance 68 with a
medical certificate. -/
theorem C4_authority_conflict_witness :
    (evaluate_grievance "ATTENDANCE_SHORTAGE"
        [("attendance_percentage", PValue.num 68),
         ("has_medical_certificate", PValue.bool true)]).trace.conflicts_detected
      = [attendance_authority_conflict] ∧
    (evaluate_grievance "ATTENDANCE_SHORTAGE"
        [("attendance_percentage", PValue.num 68),
         ("has_medical_certificate", PValue.bool true)]).decision.outcome = "REJECT" :=
  ⟨(C4_authority_conflict
      [("attendance_percentage", PValue.num 68),
       ("has_medical_certificate", PValue.bool true)]
      (by decide) (by decide) (by decide)).2.1,
   (C4_authority_conflict
      [("attendance_percentage", PValue.num 68),
       ("has_medical_certificate", PValue.bool true)]
      (by decide) (by decide) (by decide)).2.2.2.2.2.2.2.2.2.2.2.1⟩

/-- Claim C5: conflicts are recorded only between fired rules that disagree
on outcome — for every evaluation, if all fired entries share one outcome
(in particular when two or more fire in agreement), the conflicts list is
empty. -/
theorem C5_agreement_no_conflict (gtype : String) (params : Params)
    (h : ∀ f ∈ firedRules (evaluate_grievance gtype params).trace,
         ∀ g ∈ firedRules (evaluate_grievance gtype params).trace,
           f.outcome = g.outcome) :
    (evaluate_grievance gtype params).trace.conflicts_detected = [] := by
  by_cases hA : gtype = "ATTENDANCE_SHORTAGE"
  · subst hA
    by_cases hc : (getBool params "has_medical_certificate" false = true) ∧
        65 ≤ getNum params "attendance_percentage" 0 ∧
        getNum params "attendance_percentage" 0 < 75
    · exfalso
      obtain ⟨hm, h65, h75⟩ := hc
      have hmem1 : ugc_attendance_rule ∈
          firedRules (evaluate_grievance "ATTENDANCE_SHORTAGE" params).trace := by
        simp [firedRules, evaluate_grievance, evaluate_attendance, hm, h65, h75,
              ugc_attendance_rule]
      have hmem2 : medical_excuse_rule ∈
          firedRules (evaluate_grievance "ATTENDANCE_SHORTAGE" params).trace := by
        simp [firedRules, evaluate_grievance, evaluate_attendance, hm, h65, h75,
              medical_excuse_rule]
      have := h ugc_attendance_rule hmem1 medical_excuse_rule hmem2
      simp [ugc_attendance_rule, medical_excuse_rule] at this
    · have : ¬ ((getBool params "has_medical_certificate" false = true) ∧
          65 ≤ getNum params "attendance_percentage" 0 ∧
          getNum params "attendance_percentage" 0 < 75) := hc
      simp [evaluate_grievance, evaluate_attendance, this]
  · by_cases hE : gtype = "EXAMINATION_REEVAL"
    · subst hE; simp [evaluate_grievance, evaluate_examination]
    · by_cases hF : gtype = "FEE_WAIVER"
      · subst hF; simp [evaluate_grievance, evaluate_fee_waiver]
      · simp [evaluate_grievance, hA, hE, hF, default_evaluation]

/-- Claim C5 witness: the theorem instantiated at a single-firing
examination evaluation. -/
theorem C5_agreement_no_conflict_witness :
    (evaluate_grievance "EXAMINATION_REEVAL" []).trace.conflicts_detected = [] :=
  C5_agreement_no_conflict "EXAMINATION_REEVAL" [] (by decide)

/-- Claim C9 counterexample: an unknown grievance type does not yield an
empty rules_evaluated list — the engine records one entry, the default
review rule, and that entry has fired = true. -/
theorem C9_counterexample :
    (evaluate_grievance "HOSTEL_ISSUE" []).trace.rules_evaluated = [default_firing] ∧
    default_firing.fired = true := by
  decide

/-- Claim C9 (amended): an unknown grievance type is not an error — the
evaluation yields exactly one firing, the Default_Review_Required rule with
outcome PENDING_CLARIFICATION and fired = true, and the default decision
requiring human review. -/
theorem C9_unknown_type_default (gtype : String) (params : Params)
    (hA : gtype ≠ "ATTENDANCE_SHORTAGE") (hE : gtype ≠ "EXAMINATION_REEVAL")
    (hF : gtype ≠ "FEE_WAIVER") :
    (evaluate_grievance gtype params).trace.rules_evaluated = [default_firing] ∧
    default_firing.fired = true ∧
    default_firing.outcome = "PENDING_CLARIFICATION" ∧
    (evaluate_grievance gtype params).decision = default_decision ∧
    default_decision.human_review_required = true ∧
    (evaluate_grievance gtype params).rules_fired = 1 := by
  simp only [evaluate_grievance, if_neg hA, if_neg hE, if_neg hF]
  exact ⟨rfl, rfl, rfl, rfl, rfl, rfl⟩

/-- Claim C9 witness: the amended statement instantiated at an unknown
grievance type. -/
theorem C9_unknown_type_default_witness :
    (evaluate_grievance "HOSTEL_ISSUE" []).trace.rules_evaluated = [default_firing] ∧
    (evaluate_grievance "HOSTEL_ISSUE" []).decision = default_decision :=
  ⟨(C9_unknown_type_default "HOSTEL_ISSUE" [] (by decide) (by decide) (by decide)).1,
   (C9_unknown_type_default "HOSTEL_ISSUE" [] (by decide) (by decide) (by decide)).2.2.2.1⟩

/-- Claim C6: for a non-empty similar-cases list, the consistency score is
0.5 times the outcome-match fraction plus 0.3 times the rule-match fraction
plus 0.2 times the hierarchy-level-match fraction, rounded to 4 decimal
places, and always lies in [0, 1]; for an empty list it is exactly 1. -/
theorem C6_consistency_score (current : CaseSummary) (cases : List CaseSummary) :
    (cases = [] → calculate_consistency_score current cases = 1) ∧
    (cases ≠ [] →
      calculate_consistency_score current cases =
        round4 (0.5 * (((cases.filter (fun c => c.outcome = current.outcome)).length : ℚ)
                  / (cases.length : ℚ)) +
                0.3 * (((cases.filter
                    (fun c => c.applicable_rule = current.applicable_rule)).length : ℚ)
                  / (cases.length : ℚ)) +
                0.2 * (((cases.filter
                    (fun c => c.hierarchy_level = current.hierarchy_level)).length : ℚ)
                  / (cases.length : ℚ))) ∧
      0 ≤ calculate_consistency_score current cases ∧
      calculate_consistency_score current cases ≤ 1) := by
  constructor
  · intro h; simp [calculate_consistency_score, h]
  · intro h
    have hn : (0 : ℚ) < (cases.length : ℚ) := by
      exact_mod_cast List.length_pos.2 h
    have hratio : ∀ p : CaseSummary → Bool,
        (0 : ℚ) ≤ ((cases.filter p).length : ℚ) / (cases.length : ℚ) ∧
        ((cases.filter p).length : ℚ) / (cases.length : ℚ) ≤ 1 := by
      intro p
      constructor
      · positivity
      · rw [div_le_one hn]
        exact_mod_cast List.length_filter_le p cases
    obtain ⟨ha0, ha1⟩ := hratio (fun c => c.outcome = current.outcome)
    obtain ⟨hb0, hb1⟩ := hratio (fun c => c.applicable_rule = current.applicable_rule)
    obtain ⟨hc0, hc1⟩ := hratio (fun c => c.hierarchy_level = current.hierarchy_level)
    have hform : calculate_consistency_score current cases =
        round4 (0.5 * (((cases.filter (fun c => c.outcome = current.outcome)).length : ℚ)
                  / (cases.length : ℚ)) +
                0.3 * (((cases.filter
                    (fun c => c.applicable_rule = current.applicable_rule)).length : ℚ)
                  / (cases.length : ℚ)) +
                0.2 * (((cases.filter
                    (fun c => c.hierarchy_level = current.hierarchy_level)).length : ℚ)
                  / (cases.length : ℚ))) := by
      simp [calculate_consistency_score, h]
    refine ⟨hform, ?_, ?_⟩
    · rw [hform]
      apply round4_nonneg
      nlinarith
    · rw [hform]
      apply round4_le_one
      nlinarith

/-- Claim C6 witness: the theorem instantiated at an empty and a singleton
similar-cases list. -/
theorem C6_consistency_score_witness :
    calculate_consistency_score fair_current_accept [] = 1 ∧
    (calculate_consistency_score fair_current_accept [fair_case_reject] =
        round4 (0.5 * ((([fair_case_reject].filter
              (fun c => c.outcome = fair_current_accept.outcome)).length : ℚ)
            / (([fair_case_reject] : List CaseSummary).length : ℚ)) +
          0.3 * ((([fair_case_reject].filter
              (fun c => c.applicable_rule = fair_current_accept.applicable_rule)).length : ℚ)
            / (([fair_case_reject] : List CaseSummary).length : ℚ)) +
          0.2 * ((([fair_case_reject].filter
              (fun c => c.hierarchy_level = fair_current_accept.hierarchy_level)).length : ℚ)
            / (([fair_case_reject] : List CaseSummary).length : ℚ))) ∧
      0 ≤ calculate_consistency_score fair_current_accept [fair_case_reject] ∧
      calculate_consistency_score fair_current_accept [fair_case_reject] ≤ 1) :=
  ⟨(C6_consistency_score fair_current_accept []).1 rfl,
   (C6_consistency_score fair_current_accept [fair_case_reject]).2 (by decide)⟩

/-- Claim C7: for non-empty similar cases, an anomaly is reported exactly
when the score is strictly below the 0.85 threshold and the current outcome
differs from the most frequent historical outcome — where most frequent
means maximal multiplicity with ties broken by first occurrence in input
order, witnessed by the list decomposition below — and the reported reason
carries the current outcome, the majority outcome with its count out of the
total number of cases, and the score together with the threshold. -/
theorem C7_anomaly_detection (score : ℚ) (current : CaseSummary)
    (cases : List CaseSummary) (h : cases ≠ []) :
    ∃ mc cnt, mostCommonWithCount (cases.map (fun c => c.outcome)) = some (mc, cnt) ∧
      cnt = (cases.map (fun c => c.outcome)).count mc ∧
      (∀ b ∈ cases.map (fun c => c.outcome),
        (cases.map (fun c => c.outcome)).count b ≤ cnt) ∧
      (∃ pre post, cases.map (fun c => c.outcome) = pre ++ mc :: post ∧
        ∀ b ∈ pre, (cases.map (fun c => c.outcome)).count b < cnt) ∧
      (detect_anomaly score current cases =
          Except.ok (true, some
            { current_outcome := current.outcome
              most_common_outcome := mc
              count := cnt
              total := cases.length
              consistency_score := score
              threshold := consistency_threshold })
        ↔ (score < consistency_threshold ∧ current.outcome ≠ mc)) ∧
      (¬ (score < consistency_threshold ∧ current.outcome ≠ mc) →
        detect_anomaly score current cases = Except.ok (false, none)) := by
  have hl : cases.map (fun c => c.outcome) ≠ [] := by simpa using h
  cases ha : firstMax (fun a => (cases.map (fun c => c.outcome)).count a)
      (cases.map (fun c => c.outcome)) with
  | none => exact absurd ((firstMax_eq_none_iff _ _).1 ha) hl
  | some a =>
    have hmc : mostCommonWithCount (cases.map (fun c => c.outcome)) =
        some (a, (cases.map (fun c => c.outcome)).count a) := by
      simp only [mostCommonWithCount]
      rw [ha]
      rfl
    refine ⟨a, (cases.map (fun c => c.outcome)).count a, hmc, rfl,
      firstMax_isMax _ _ a ha, firstMax_first _ _ a ha, ?_, ?_⟩
    · by_cases hs : score < consistency_threshold
      · by_cases ho : current.outcome = a
        · have hval : detect_anomaly score current cases = Except.ok (false, none) := by
            simp [detect_anomaly, hmc, hs, ho]
          rw [hval]
          simp [ho]
        · have hval : detect_anomaly score current cases =
              Except.ok (true, some
                { current_outcome := current.outcome
                  most_common_outcome := a
                  count := (cases.map (fun c => c.outcome)).count a
                  total := cases.length
                  consistency_score := score
                  threshold := consistency_threshold }) := by
            simp [detect_anomaly, hmc, hs, ho]
          rw [hval]
          simp [hs, ho]
      · have hval : detect_anomaly score current cases = Except.ok (false, none) := by
          simp [detect_anomaly, hs]
        rw [hval]
        simp [hs]
    · intro hcon
      by_cases hs : score < consistency_threshold
      · by_cases ho : current.outcome = a
        · simp [detect_anomaly, hmc, hs, ho]
        · exact absurd ⟨hs, ho⟩ hcon
      · simp [detect_anomaly, hs]

/-- Claim C7 witness: the theorem instantiated at score 0 against a single
REJECT historical case. -/
theorem C7_anomaly_detection_witness :
    ∃ mc cnt,
      mostCommonWithCount ([fair_case_reject].map (fun c => c.outcome)) = some (mc, cnt) ∧
      cnt = ([fair_case_reject].map (fun c => c.outcome)).count mc ∧
      (∀ b ∈ [fair_case_reject].map (fun c => c.outcome),
        ([fair_case_reject].map (fun c => c.outcome)).count b ≤ cnt) ∧
      (∃ pre post, [fair_case_reject].map (fun c => c.outcome) = pre ++ mc :: post ∧
        ∀ b ∈ pre, ([fair_case_reject].map (fun c => c.outcome)).count b < cnt) ∧
      (detect_anomaly 0 fair_current_accept [fair_case_reject] =
          Except.ok (true, some
            { current_outcome := fair_current_accept.outcome
              most_common_outcome := mc
              count := cnt
              total := ([fair_case_reject] : List CaseSummary).length
              consistency_score := 0
              threshold := consistency_threshold })
        ↔ ((0 : ℚ) < consistency_threshold ∧ fair_current_accept.outcome ≠ mc)) ∧
      (¬ ((0 : ℚ) < consistency_threshold ∧ fair_current_accept.outcome ≠ mc) →
        detect_anomaly 0 fair_current_accept [fair_case_reject] =
          Except.ok (false, none)) :=
  C7_anomaly_detection 0 fair_current_accept [fair_case_reject] (by decide)

/-- Claim C8 counterexample: a non-anomalous decision with consistency
score 1/2 — strictly below the claimed 0.85 lower bound of the middle
band — still receives the "review suggested" text, so the middle band is
not restricted to scores at least 0.85. -/
theorem C8_counterexample :
    generate_recommendation (1/2) false = review_suggested_text ∧
    ¬ ((0.85 : ℚ) ≤ 1/2) := by
  constructor
  · norm_num [generate_recommendation]
  · norm_num

/-- Claim C8 (amended): the recommendation is one of exactly three texts:
the anomaly band yields the human-review text; otherwise any score below
0.90 (with no lower bound) yields the review-suggested text; otherwise the
consistent text. -/
theorem C8_recommendation_bands (score : ℚ) (is_anomaly : Bool) :
    (is_anomaly = true → generate_recommendation score is_anomaly = human_review_text) ∧
    (is_anomaly = false → score < 0.90 →
      generate_recommendation score is_anomaly = review_suggested_text) ∧
    (is_anomaly = false → 0.90 ≤ score →
      generate_recommendation score is_anomaly = consistent_text) ∧
    (generate_recommendation score is_anomaly = human_review_text ∨
     generate_recommendation score is_anomaly = review_suggested_text ∨
     generate_recommendation score is_anomaly = consistent_text) := by
  refine ⟨?_, ?_, ?_, ?_⟩
  · intro hb; simp [generate_recommendation, hb]
  · intro hb hlt; simp [generate_recommendation, hb, hlt]
  · intro hb hge; simp [generate_recommendation, hb, not_lt.2 hge]
  · by_cases hb : is_anomaly = true
    · left; simp [generate_recommendation, hb]
    · by_cases hlt : score < 0.90
      · right; left; simp [generate_recommendation, hb, hlt]
      · right; right; simp [generate_recommendation, hb, hlt]

/-- Claim C8 witness: the amended bands instantiated at score 1/2 without
an anomaly. -/
theorem C8_recommendation_bands_witness :
    generate_recommendation (1/2) false = review_suggested_text :=
  (C8_recommendation_bands (1/2) false).2.1 rfl (by norm_num)

/-- Claim C10: calling detect_anomaly with an empty similar-cases list and
a score below the threshold hits the empty most-common lookup and raises
(IndexError), while the public scoring path never does: an empty list
scores exactly 1, which is not below the 0.85 threshold, so the raising
branch is skipped and (false, none) is returned. -/
theorem C10_empty_similar_cases (score : ℚ) (current : CaseSummary)
    (h : score < consistency_threshold) :
    detect_anomaly score current [] =
      Except.error "IndexError: list index out of range" ∧
    calculate_consistency_score current [] = 1 ∧
    ¬ (calculate_consistency_score current [] < consistency_threshold) ∧
    detect_anomaly (calculate_consistency_score current []) current [] =
      Except.ok (false, none) := by
  have h1 : calculate_consistency_score current [] = 1 := by
    simp [calculate_consistency_score]
  have hth : ¬ ((1 : ℚ) < consistency_threshold) := by
    norm_num [consistency_threshold]
  refine ⟨?_, h1, ?_, ?_⟩
  · simp [detect_anomaly, h, mostCommonWithCount, firstMax]
  · rw [h1]; exact hth
  · rw [h1]; simp [detect_anomaly, hth]

/-- Claim C10 witness: the theorem instantiated at score 0. -/
theorem C10_empty_similar_cases_witness :
    detect_anomaly 0 fair_current_accept [] =
      Except.error "IndexError: list index out of range" ∧
    calculate_consistency_score fair_current_accept [] = 1 ∧
    ¬ (calculate_consistency_score fair_current_accept [] < consistency_threshold) ∧
    detect_anomaly (calculate_consistency_score fair_current_accept [])
        fair_current_accept [] = Except.ok (false, none) :=
  C10_empty_similar_cases 0 fair_current_accept (by norm_num [consistency_threshold])

end DSS
